import Mathlib

/-!
Shallow embedding of the thor-commerce better-auth plugin helpers.

Timestamps are milliseconds since the epoch, modelled as `Int`
(JavaScript `Date.getTime()` / `Date.now()` values).  Network effects are
injected: each helper that performs a `fetch` is modelled as a pure
function of the HTTP response it would receive, and the orchestrating
routines additionally return the ordered list of provider calls they
issued, so that "this call is never made" and "call A completes before
call B begins" are expressible.
-/

namespace ThorAuth

/-- Group membership entry, the element type of `UserInfo.groups` and
`SessionData.user.groups` in `src/helpers/user-info.ts` and
`src/helpers/authenticate.ts`. -/
structure Group where
  id : String
  name : String
  deriving Repr, DecidableEq

/-- The `user` part of `SessionData` (src/helpers/authenticate.ts). -/
structure User where
  id : String
  email : String
  name : String
  createdAt : Int
  updatedAt : Int
  emailVerified : Bool
  groups : List Group
  deriving Repr, DecidableEq

/-- The `session` part of `SessionData` (src/helpers/authenticate.ts).
The `id` field doubles as the provider refresh-token handle. -/
structure Session where
  id : String
  userId : String
  createdAt : Int
  updatedAt : Int
  token : String
  expiresAt : Int
  deriving Repr, DecidableEq

/-- `SessionData` from src/helpers/authenticate.ts. -/
structure SessionData where
  user : User
  session : Session
  deriving Repr, DecidableEq

/-- `AuthError` from src/helpers/authenticate.ts. -/
structure AuthError where
  error : String
  status : Nat
  deriving Repr, DecidableEq

/-- The GraphQL `customerAccessToken` node returned by the provider for
both `CustomerAccessTokenCreate` and `CustomerAccessTokenRefresh`. -/
structure TokenNode where
  accessToken : String
  refreshToken : String
  expiresIn : Int
  deriving Repr, DecidableEq

/-- `AccessTokenResponse` from src/helpers/idp-login.ts. -/
structure AccessTokenResponse where
  accessToken : String
  refreshToken : String
  expiresIn : Int
  deriving Repr, DecidableEq

/-- `RefreshTokenResponse` from src/helpers/token-refresh.ts. -/
structure RefreshTokenResponse where
  accessToken : String
  refreshToken : String
  expiresIn : Int
  deriving Repr, DecidableEq

/-! ### HTTP response shapes

Each JSON body is modelled structurally, with `Option` standing for the
null/undefined cases that the source's optional chaining (`?.`) guards. -/

/-- Payload of `customerAccessTokenCreate` in the login response. -/
structure TokenCreatePayload where
  customerAccessToken : Option TokenNode
  deriving Repr, DecidableEq

/-- The `data` object of the login response body. -/
structure LoginData where
  customerAccessTokenCreate : Option TokenCreatePayload
  deriving Repr, DecidableEq

/-- Parsed JSON body of the login response; the whole body may be null. -/
structure LoginJson where
  data : Option LoginData
  deriving Repr, DecidableEq

/-- HTTP response observed by `callIdpLogin`: the `res.ok` flag and the
parsed JSON body (`null` body modelled as `none`). -/
structure LoginResponse where
  ok : Bool
  json : Option LoginJson
  deriving Repr, DecidableEq

/-- Payload of `customerAccessTokenRefresh` in the refresh response. -/
structure TokenRefreshPayload where
  customerAccessToken : Option TokenNode
  deriving Repr, DecidableEq

/-- The `data` object of the refresh response body. -/
structure RefreshData where
  customerAccessTokenRefresh : Option TokenRefreshPayload
  deriving Repr, DecidableEq

/-- Parsed JSON body of the refresh response. -/
structure RefreshJson where
  data : Option RefreshData
  deriving Repr, DecidableEq

/-- HTTP response observed by `refreshAccessToken`. -/
structure RefreshResponse where
  ok : Bool
  json : Option RefreshJson
  deriving Repr, DecidableEq

/-- The nested `customerGroups` object of the provider's customer
payload; `nodes` may be absent. -/
structure CustomerGroups where
  nodes : Option (List Group)
  deriving Repr, DecidableEq

/-- The `customer` object of the `GetCustomer` response. -/
structure Customer where
  id : String
  firstName : String
  lastName : String
  email : String
  customerGroups : Option CustomerGroups
  deriving Repr, DecidableEq

/-- The `data` object of the profile response body. -/
structure ProfileData where
  customer : Option Customer
  deriving Repr, DecidableEq

/-- Parsed JSON body of the profile response. -/
structure ProfileJson where
  data : Option ProfileData
  deriving Repr, DecidableEq

/-- HTTP response observed by `getUserInfo`. -/
structure ProfileResponse where
  ok : Bool
  json : Option ProfileJson
  deriving Repr, DecidableEq

/-- `UserInfo` from src/helpers/user-info.ts (the current version, whose
shape the unit tests and `authenticateAndCreateSession` both use: it
carries the flat `groups` collection). -/
structure UserInfo where
  id : String
  firstName : String
  lastName : String
  email : String
  groups : List Group
  deriving Repr, DecidableEq

/-! ### Provider calls, as pure functions of the injected response -/

/-- The local `tokenNode` extraction of `callIdpLogin`:
`json?.data?.customerAccessTokenCreate?.customerAccessToken`. -/
def loginTokenNode (json : Option LoginJson) : Option TokenNode :=
  (((json.bind fun j => j.data).bind
      fun d => d.customerAccessTokenCreate).bind
        fun p => p.customerAccessToken)

/-- `callIdpLogin` from src/helpers/idp-login.ts, as a function of the
HTTP response it receives from the provider. -/
def callIdpLogin (res : LoginResponse) : Option AccessTokenResponse :=
  if !res.ok then none
  else
    match loginTokenNode res.json with
    | none => none
    | some t =>
      some { accessToken := t.accessToken
             refreshToken := t.refreshToken
             expiresIn := t.expiresIn }

/-- The local `tokenNode` extraction of `refreshAccessToken`:
`json?.data?.customerAccessTokenRefresh?.customerAccessToken`. -/
def refreshTokenNode (json : Option RefreshJson) : Option TokenNode :=
  (((json.bind fun j => j.data).bind
      fun d => d.customerAccessTokenRefresh).bind
        fun p => p.customerAccessToken)

/-- `refreshAccessToken` from src/helpers/token-refresh.ts, as a function
of the HTTP response it receives from the provider. -/
def refreshAccessToken (res : RefreshResponse) : Option RefreshTokenResponse :=
  if !res.ok then none
  else
    match refreshTokenNode res.json with
    | none => none
    | some t =>
      some { accessToken := t.accessToken
             refreshToken := t.refreshToken
             expiresIn := t.expiresIn }

/-- The local `customer` extraction of `getUserInfo`: `json?.data?.customer`. -/
def profileCustomer (json : Option ProfileJson) : Option Customer :=
  (json.bind fun j => j.data).bind fun d => d.customer

/-- `getUserInfo` from src/helpers/user-info.ts, as a function of the HTTP
response it receives; `groups` mirrors
`customer.customerGroups?.nodes?.map(...) ?? []`. -/
def getUserInfo (res : ProfileResponse) : Option UserInfo :=
  if !res.ok then none
  else
    match profileCustomer res.json with
    | none => none
    | some customer =>
      some { id := customer.id
             firstName := customer.firstName
             lastName := customer.lastName
             email := customer.email
             groups :=
               match customer.customerGroups with
               | none => []
               | some cg =>
                 match cg.nodes with
                 | none => []
                 | some ns => ns.map fun g => { id := g.id, name := g.name } }

/-! ### Session bootstrap -/

/-- Result of `authenticateAndCreateSession`: the TypeScript union
`SessionData | AuthError`. -/
inductive AuthResult where
  | ok (sd : SessionData)
  | err (e : AuthError)
  deriving Repr, DecidableEq

/-- A provider call issued during session bootstrap, in issuance order. -/
inductive CallEvent where
  | login (email password : String)
  | profile (accessToken : String)
  deriving Repr, DecidableEq

/-- `authenticateAndCreateSession` from src/helpers/authenticate.ts.
`now` is the single `Date.now()` capture; `loginRes` is the HTTP response
to the login request and `profileRes` maps the bearer access token
presented to the HTTP response of the profile request.  The second
component is the ordered list of provider calls issued. -/
def authenticateAndCreateSession (now : Int) (email password : String)
    (loginRes : LoginResponse) (profileRes : String → ProfileResponse) :
    AuthResult × List CallEvent :=
  match callIdpLogin loginRes with
  | none =>
    (.err { error := "Invalid credentials", status := 401 },
     [.login email password])
  | some idpLogin =>
    let accessToken := idpLogin.accessToken
    let refreshToken := idpLogin.refreshToken
    let expires := now + idpLogin.expiresIn * 1000
    match getUserInfo (profileRes accessToken) with
    | none =>
      (.err { error := "Failed to fetch user info", status := 500 },
       [.login email password, .profile accessToken])
    | some userInfo =>
      (.ok { user := { id := userInfo.id
                       email := userInfo.email
                       name := userInfo.firstName ++ " " ++ userInfo.lastName
                       createdAt := now
                       updatedAt := now
                       emailVerified := true
                       groups := userInfo.groups }
             session := { id := refreshToken
                          userId := userInfo.id
                          createdAt := now
                          updatedAt := now
                          token := accessToken
                          expiresAt := expires } },
       [.login email password, .profile accessToken])

/-! ### Token-lifecycle check -/

/-- Result record of `getAccessToken` (src/helpers/token-refresh.ts). -/
structure GetAccessTokenResult where
  accessToken : String
  refreshed : Bool
  session : Option Session
  deriving Repr, DecidableEq

/-- `getAccessToken` from src/helpers/token-refresh.ts.  `now` is the
single `Date.now()` capture; `refreshRes` maps the refresh-token handle
presented by the (single, optional) provider call to the HTTP response it
would receive.  The second component is the ordered list of refresh-token
handles for which a `CustomerAccessTokenRefresh` call was issued. -/
def getAccessToken (now : Int) (session : Session)
    (refreshThresholdMinutes : Int)
    (refreshRes : String → RefreshResponse) :
    GetAccessTokenResult × List String :=
  let expiresAt := session.expiresAt
  let thresholdMs := refreshThresholdMinutes * 60 * 1000
  let timeUntilExpiry := expiresAt - now
  if timeUntilExpiry > thresholdMs then
    ({ accessToken := session.token, refreshed := false, session := none }, [])
  else
    let refreshToken := session.id
    match refreshAccessToken (refreshRes refreshToken) with
    | none =>
      ({ accessToken := session.token, refreshed := false, session := none },
       [refreshToken])
    | some refreshed =>
      let newExpiresAt := now + refreshed.expiresIn * 1000
      let updatedSession : Session :=
        { session with
            id := refreshed.refreshToken
            token := refreshed.accessToken
            expiresAt := newExpiresAt
            updatedAt := now }
      ({ accessToken := refreshed.accessToken
         refreshed := true
         session := some updatedSession },
       [refreshToken])

/-! ### Concrete response builders used by witnesses and counterexamples -/

/-- Helper: a successful login HTTP response carrying token node `t`. -/
def loginSuccessResponse (t : TokenNode) : LoginResponse :=
  { ok := true, json := some { data := some { customerAccessTokenCreate := some { customerAccessToken := some t } } } }

/-- Helper: a provider-rejected login HTTP response (HTTP success, token payload absent). -/
def loginRejectedResponse : LoginResponse :=
  { ok := true, json := some { data := some { customerAccessTokenCreate := some { customerAccessToken := none } } } }

/-- Helper: a successful refresh HTTP response carrying token node `t`. -/
def refreshSuccessResponse (t : TokenNode) : RefreshResponse :=
  { ok := true, json := some { data := some { customerAccessTokenRefresh := some { customerAccessToken := some t } } } }

/-- Helper: a successful profile HTTP response carrying customer `c`. -/
def profileSuccessResponse (c : Customer) : ProfileResponse :=
  { ok := true, json := some { data := some { customer := some c } } }

/-! ### Branch characterizations of `getAccessToken` (shared helper lemmas) -/

/-- Helper: when the token is comfortably far from expiry, `getAccessToken`
takes the first branch. -/
theorem getAccessToken_gt (now : Int) (s : Session) (thr : Int)
    (refreshRes : String → RefreshResponse)
    (h : s.expiresAt - now > thr * 60 * 1000) :
    getAccessToken now s thr refreshRes =
      ({ accessToken := s.token, refreshed := false, session := none }, []) := by
  simp only [getAccessToken]
  rw [if_pos h]

/-- Helper: when the token is within the threshold and the refresh call
yields no result, `getAccessToken` falls back to the existing token. -/
theorem getAccessToken_le_none (now : Int) (s : Session) (thr : Int)
    (refreshRes : String → RefreshResponse)
    (h : ¬ s.expiresAt - now > thr * 60 * 1000)
    (hf : refreshAccessToken (refreshRes s.id) = none) :
    getAccessToken now s thr refreshRes =
      ({ accessToken := s.token, refreshed := false, session := none },
       [s.id]) := by
  simp only [getAccessToken]
  rw [if_neg h, hf]

/-- Helper: when the token is within the threshold and the refresh call
yields a token set, `getAccessToken` returns the refreshed result. -/
theorem getAccessToken_le_some (now : Int) (s : Session) (thr : Int)
    (refreshRes : String → RefreshResponse) (ts : RefreshTokenResponse)
    (h : ¬ s.expiresAt - now > thr * 60 * 1000)
    (hok : refreshAccessToken (refreshRes s.id) = some ts) :
    getAccessToken now s thr refreshRes =
      ({ accessToken := ts.accessToken
         refreshed := true
         session := some { s with
                             id := ts.refreshToken
                             token := ts.accessToken
                             expiresAt := now + ts.expiresIn * 1000
                             updatedAt := now } },
       [s.id]) := by
  simp only [getAccessToken]
  rw [if_neg h, hok]

/-- Helper: the threshold in milliseconds computed by the source,
`refreshThresholdMinutes * 60 * 1000`, equals `thr * 60000`. -/
theorem threshold_ms_eq (thr : Int) : thr * 60 * 1000 = thr * 60000 := by
  ring

/-- Claim C1: whenever `session.expiresAt - now` strictly exceeds
`thresholdMinutes * 60000` ms, `getAccessToken` returns the existing
access token with `refreshed = false`, no updated session, and issues no
refresh call (empty call trace). -/
theorem getAccessToken_fresh_token (now : Int) (s : Session) (thr : Int)
    (refreshRes : String → RefreshResponse)
    (h : s.expiresAt - now > thr * 60000) :
    getAccessToken now s thr refreshRes =
      ({ accessToken := s.token, refreshed := false, session := none }, []) := by
  apply getAccessToken_gt
  rw [threshold_ms_eq]
  exact h

/-- Claim C1 witness: a session 30 minutes from expiry with threshold 5
is served as-is with no refresh call. -/
theorem getAccessToken_fresh_token_witness :
    getAccessToken 0
      { id := "R1", userId := "U1", createdAt := 0, updatedAt := 0,
        token := "T1", expiresAt := 1800000 } 5
      (fun _ => { ok := false, json := none }) =
      ({ accessToken := "T1", refreshed := false, session := none }, []) :=
  getAccessToken_fresh_token 0
    { id := "R1", userId := "U1", createdAt := 0, updatedAt := 0,
      token := "T1", expiresAt := 1800000 } 5
    (fun _ => { ok := false, json := none }) (by decide)

/-- Claim C2: when the token is within the refresh threshold and the
refresh call yields a token set, `getAccessToken` returns `refreshed =
true`, the new access token, and an updated session whose id is the new
refresh token, token the new access token, `expiresAt = now + expiresIn *
1000`, `updatedAt = now`, with `createdAt` (and `userId`) preserved. -/
theorem getAccessToken_refresh_success (now : Int) (s : Session) (thr : Int)
    (refreshRes : String → RefreshResponse) (ts : RefreshTokenResponse)
    (hle : s.expiresAt - now ≤ thr * 60000)
    (hok : refreshAccessToken (refreshRes s.id) = some ts) :
    getAccessToken now s thr refreshRes =
      ({ accessToken := ts.accessToken
         refreshed := true
         session := some { id := ts.refreshToken
                           userId := s.userId
                           createdAt := s.createdAt
                           updatedAt := now
                           token := ts.accessToken
                           expiresAt := now + ts.expiresIn * 1000 } },
       [s.id]) := by
  rw [getAccessToken_le_some now s thr refreshRes ts (by rw [threshold_ms_eq]; omega) hok]

/-- Claim C2 witness: Scenario C — a session 3 minutes from expiry with
default threshold 5 is refreshed with the provider's new pair. -/
theorem getAccessToken_refresh_success_witness :
    getAccessToken 0
      { id := "R1", userId := "U1", createdAt := -100, updatedAt := -100,
        token := "T1", expiresAt := 180000 } 5
      (fun _ => refreshSuccessResponse
        { accessToken := "T2", refreshToken := "R2", expiresIn := 3600 }) =
      ({ accessToken := "T2"
         refreshed := true
         session := some { id := "R2", userId := "U1", createdAt := -100,
                           updatedAt := 0, token := "T2",
                           expiresAt := 3600000 } },
       ["R1"]) :=
  getAccessToken_refresh_success 0
    { id := "R1", userId := "U1", createdAt := -100, updatedAt := -100,
      token := "T1", expiresAt := 180000 } 5
    (fun _ => refreshSuccessResponse
      { accessToken := "T2", refreshToken := "R2", expiresIn := 3600 })
    { accessToken := "T2", refreshToken := "R2", expiresIn := 3600 }
    (by decide) (by decide)

/-- Claim C3: when the token is within the refresh threshold and the
refresh call yields no result, `getAccessToken` returns the existing
access token with `refreshed = false` and no updated session; the
function is total (it never raises) and pure (the input session is
untouched). -/
theorem getAccessToken_refresh_failed (now : Int) (s : Session) (thr : Int)
    (refreshRes : String → RefreshResponse)
    (hle : s.expiresAt - now ≤ thr * 60000)
    (hf : refreshAccessToken (refreshRes s.id) = none) :
    getAccessToken now s thr refreshRes =
      ({ accessToken := s.token, refreshed := false, session := none },
       [s.id]) := by
  rw [getAccessToken_le_none now s thr refreshRes (by rw [threshold_ms_eq]; omega) hf]

/-- Claim C3 witness: Scenario D — a session 3 minutes from expiry whose
refresh call gets a non-success transport status keeps the old token. -/
theorem getAccessToken_refresh_failed_witness :
    getAccessToken 0
      { id := "R1", userId := "U1", createdAt := 0, updatedAt := 0,
        token := "T1", expiresAt := 180000 } 5
      (fun _ => { ok := false, json := none }) =
      ({ accessToken := "T1", refreshed := false, session := none },
       ["R1"]) :=
  getAccessToken_refresh_failed 0
    { id := "R1", userId := "U1", createdAt := 0, updatedAt := 0,
      token := "T1", expiresAt := 180000 } 5
    (fun _ => { ok := false, json := none }) (by decide) (by decide)

/-- Claim C4: any updated session returned by `getAccessToken` preserves
`createdAt` and `userId`, and its refresh-token handle and access token
both come from one and the same successful refresh response — the pair is
never partially updated. -/
theorem getAccessToken_updates_pair_together (now : Int) (s : Session)
    (thr : Int) (refreshRes : String → RefreshResponse)
    (r : GetAccessTokenResult) (calls : List String) (s' : Session)
    (hrun : getAccessToken now s thr refreshRes = (r, calls))
    (hs : r.session = some s') :
    s'.createdAt = s.createdAt ∧ s'.userId = s.userId ∧
    ∃ ts, refreshAccessToken (refreshRes s.id) = some ts ∧
      s'.id = ts.refreshToken ∧ s'.token = ts.accessToken ∧
      s'.expiresAt = now + ts.expiresIn * 1000 ∧ s'.updatedAt = now := by
  by_cases hgt : s.expiresAt - now > thr * 60 * 1000
  · rw [getAccessToken_gt now s thr refreshRes hgt] at hrun
    injection hrun with h1 h2
    subst h1
    simp at hs
  · cases hok : refreshAccessToken (refreshRes s.id) with
    | none =>
      rw [getAccessToken_le_none now s thr refreshRes hgt hok] at hrun
      injection hrun with h1 h2
      subst h1
      simp at hs
    | some ts =>
      rw [getAccessToken_le_some now s thr refreshRes ts hgt hok] at hrun
      injection hrun with h1 h2
      subst h1
      simp only [Option.some.injEq] at hs
      subst hs
      exact ⟨rfl, rfl, ts, rfl, rfl, rfl, rfl, rfl⟩

/-- Claim C4 witness: instantiating the frame property on a concrete
successful refresh. -/
theorem getAccessToken_updates_pair_together_witness :
    ({ id := "R2", userId := "U1", createdAt := -100, updatedAt := 0,
       token := "T2", expiresAt := 3600000 } : Session).createdAt = -100 ∧
    ({ id := "R2", userId := "U1", createdAt := -100, updatedAt := 0,
       token := "T2", expiresAt := 3600000 } : Session).userId = "U1" ∧
    ∃ ts, refreshAccessToken
        ((fun _ => refreshSuccessResponse
          { accessToken := "T2", refreshToken := "R2", expiresIn := 3600 })
          ({ id := "R1", userId := "U1", createdAt := -100, updatedAt := -100,
             token := "T1", expiresAt := 180000 } : Session).id) = some ts ∧
      ({ id := "R2", userId := "U1", createdAt := -100, updatedAt := 0,
         token := "T2", expiresAt := 3600000 } : Session).id = ts.refreshToken ∧
      ({ id := "R2", userId := "U1", createdAt := -100, updatedAt := 0,
         token := "T2", expiresAt := 3600000 } : Session).token = ts.accessToken ∧
      ({ id := "R2", userId := "U1", createdAt := -100, updatedAt := 0,
         token := "T2", expiresAt := 3600000 } : Session).expiresAt =
          0 + ts.expiresIn * 1000 ∧
      ({ id := "R2", userId := "U1", createdAt := -100, updatedAt := 0,
         token := "T2", expiresAt := 3600000 } : Session).updatedAt = 0 :=
  getAccessToken_updates_pair_together 0
    { id := "R1", userId := "U1", createdAt := -100, updatedAt := -100,
      token := "T1", expiresAt := 180000 } 5
    (fun _ => refreshSuccessResponse
      { accessToken := "T2", refreshToken := "R2", expiresIn := 3600 })
    { accessToken := "T2"
      refreshed := true
      session := some { id := "R2", userId := "U1", createdAt := -100,
                        updatedAt := 0, token := "T2", expiresAt := 3600000 } }
    ["R1"]
    { id := "R2", userId := "U1", createdAt := -100, updatedAt := 0,
      token := "T2", expiresAt := 3600000 }
    (by decide) rfl

/-- Claim C9 counterexample: the code never compares the refreshed access
token with the old one.  With an expired session holding token "T1" and a
refresh response whose access token is again "T1", `getAccessToken`
returns `refreshed = true` with an access token equal to the old one, so
the returned token is not always distinct from the previous one. -/
theorem getAccessToken_refresh_can_return_same_token :
    (getAccessToken 0
      { id := "R1", userId := "U1", createdAt := 0, updatedAt := 0,
        token := "T1", expiresAt := 0 } 5
      (fun _ => refreshSuccessResponse
        { accessToken := "T1", refreshToken := "R2", expiresIn := 3600 })).1.refreshed
      = true ∧
    (getAccessToken 0
      { id := "R1", userId := "U1", createdAt := 0, updatedAt := 0,
        token := "T1", expiresAt := 0 } 5
      (fun _ => refreshSuccessResponse
        { accessToken := "T1", refreshToken := "R2", expiresIn := 3600 })).1.accessToken
      = ({ id := "R1", userId := "U1", createdAt := 0, updatedAt := 0,
           token := "T1", expiresAt := 0 } : Session).token := by
  decide

/-- Claim C9 (amended): for all sessions with `timeUntilExpiry ≤
threshold` (including already expired) whose refresh call succeeds,
`getAccessToken` returns `refreshed = true` and the refresh response's
access token — distinct from the old one exactly when the provider's
response carries a distinct token — together with an updated session
whose `createdAt` equals the original and whose `updatedAt` is ≥ the
invocation's start time. -/
theorem getAccessToken_refresh_success_token_origin (now : Int)
    (s : Session) (thr : Int) (refreshRes : String → RefreshResponse)
    (ts : RefreshTokenResponse)
    (hle : s.expiresAt - now ≤ thr * 60000)
    (hok : refreshAccessToken (refreshRes s.id) = some ts) :
    ∃ s', getAccessToken now s thr refreshRes =
        ({ accessToken := ts.accessToken, refreshed := true,
           session := some s' }, [s.id]) ∧
      s'.createdAt = s.createdAt ∧ now ≤ s'.updatedAt ∧
      ((getAccessToken now s thr refreshRes).1.accessToken ≠ s.token ↔
        ts.accessToken ≠ s.token) := by
  have heq := getAccessToken_le_some now s thr refreshRes ts
    (by rw [threshold_ms_eq]; omega) hok
  refine ⟨_, heq, rfl, le_refl now, ?_⟩
  rw [heq]

/-- Claim C9 (amended) witness: a concrete expired session refreshed with
a genuinely new token pair. -/
theorem getAccessToken_refresh_success_token_origin_witness :
    ∃ s', getAccessToken 0
        { id := "R1", userId := "U1", createdAt := -5, updatedAt := -5,
          token := "T1", expiresAt := -1000 } 5
        (fun _ => refreshSuccessResponse
          { accessToken := "T2", refreshToken := "R2", expiresIn := 3600 }) =
        ({ accessToken := "T2", refreshed := true, session := some s' },
         ["R1"]) ∧
      s'.createdAt = -5 ∧ (0 : Int) ≤ s'.updatedAt ∧
      ((getAccessToken 0
        { id := "R1", userId := "U1", createdAt := -5, updatedAt := -5,
          token := "T1", expiresAt := -1000 } 5
        (fun _ => refreshSuccessResponse
          { accessToken := "T2", refreshToken := "R2", expiresIn := 3600 })).1.accessToken
          ≠ "T1" ↔ ("T2" : String) ≠ "T1") :=
  getAccessToken_refresh_success_token_origin 0
    { id := "R1", userId := "U1", createdAt := -5, updatedAt := -5,
      token := "T1", expiresAt := -1000 } 5
    (fun _ => refreshSuccessResponse
      { accessToken := "T2", refreshToken := "R2", expiresIn := 3600 })
    { accessToken := "T2", refreshToken := "R2", expiresIn := 3600 }
    (by decide) (by decide)

/-- Claim C10: `getAccessToken` performs no validation of the refresh
response's `expiresIn`: for every integer `expiresIn` the updated
session's `expiresAt` is exactly `now + expiresIn * 1000` with `refreshed
= true`; in particular a non-positive `expiresIn` yields an updated
session already expired, and a small one yields a session already within
the refresh threshold. -/
theorem getAccessToken_no_expiresIn_validation (now : Int) (s : Session)
    (thr : Int) (refreshRes : String → RefreshResponse)
    (ts : RefreshTokenResponse)
    (hle : s.expiresAt - now ≤ thr * 60000)
    (hok : refreshAccessToken (refreshRes s.id) = some ts) :
    ∃ s', (getAccessToken now s thr refreshRes).1 =
        { accessToken := ts.accessToken, refreshed := true,
          session := some s' } ∧
      s'.expiresAt = now + ts.expiresIn * 1000 ∧
      (ts.expiresIn ≤ 0 → s'.expiresAt ≤ now) ∧
      (ts.expiresIn * 1000 ≤ thr * 60000 → s'.expiresAt - now ≤ thr * 60000) := by
  have heq := getAccessToken_le_some now s thr refreshRes ts
    (by rw [threshold_ms_eq]; omega) hok
  refine ⟨_, by rw [heq], rfl, ?_, ?_⟩
  · intro h
    show now + ts.expiresIn * 1000 ≤ now
    omega
  · intro h
    show now + ts.expiresIn * 1000 - now ≤ thr * 60000
    omega

/-- Claim C10 witness: a refresh response with `expiresIn = -1` is folded
in unchecked, producing an already-expired updated session. -/
theorem getAccessToken_no_expiresIn_validation_witness :
    ∃ s', (getAccessToken 0
        { id := "R1", userId := "U1", createdAt := 0, updatedAt := 0,
          token := "T1", expiresAt := 0 } 5
        (fun _ => refreshSuccessResponse
          { accessToken := "T2", refreshToken := "R2", expiresIn := -1 })).1 =
        { accessToken := "T2", refreshed := true, session := some s' } ∧
      s'.expiresAt = 0 + (-1 : Int) * 1000 ∧
      ((-1 : Int) ≤ 0 → s'.expiresAt ≤ 0) ∧
      ((-1 : Int) * 1000 ≤ 5 * 60000 → s'.expiresAt - 0 ≤ 5 * 60000) :=
  getAccessToken_no_expiresIn_validation 0
    { id := "R1", userId := "U1", createdAt := 0, updatedAt := 0,
      token := "T1", expiresAt := 0 } 5
    (fun _ => refreshSuccessResponse
      { accessToken := "T2", refreshToken := "R2", expiresIn := -1 })
    { accessToken := "T2", refreshToken := "R2", expiresIn := -1 }
    (by decide) (by decide)

/-! ### Branch characterizations of `authenticateAndCreateSession` -/

/-- Helper: bootstrap when the login call yields no result. -/
theorem authenticate_login_none (now : Int) (email password : String)
    (loginRes : LoginResponse) (profileRes : String → ProfileResponse)
    (h : callIdpLogin loginRes = none) :
    authenticateAndCreateSession now email password loginRes profileRes =
      (.err { error := "Invalid credentials", status := 401 },
       [.login email password]) := by
  simp only [authenticateAndCreateSession, h]

/-- Helper: bootstrap when login succeeds but the profile fetch yields no
result. -/
theorem authenticate_profile_none (now : Int) (email password : String)
    (loginRes : LoginResponse) (profileRes : String → ProfileResponse)
    (t : AccessTokenResponse)
    (hl : callIdpLogin loginRes = some t)
    (hp : getUserInfo (profileRes t.accessToken) = none) :
    authenticateAndCreateSession now email password loginRes profileRes =
      (.err { error := "Failed to fetch user info", status := 500 },
       [.login email password, .profile t.accessToken]) := by
  simp only [authenticateAndCreateSession, hl, hp]

/-- Helper: bootstrap when login and profile fetch both succeed. -/
theorem authenticate_success_eq (now : Int) (email password : String)
    (loginRes : LoginResponse) (profileRes : String → ProfileResponse)
    (t : AccessTokenResponse) (u : UserInfo)
    (hl : callIdpLogin loginRes = some t)
    (hp : getUserInfo (profileRes t.accessToken) = some u) :
    authenticateAndCreateSession now email password loginRes profileRes =
      (.ok { user := { id := u.id
                       email := u.email
                       name := u.firstName ++ " " ++ u.lastName
                       createdAt := now
                       updatedAt := now
                       emailVerified := true
                       groups := u.groups }
             session := { id := t.refreshToken
                          userId := u.id
                          createdAt := now
                          updatedAt := now
                          token := t.accessToken
                          expiresAt := now + t.expiresIn * 1000 } },
       [.login email password, .profile t.accessToken]) := by
  simp only [authenticateAndCreateSession, hl, hp]

/-- Claim C5: session bootstrap fails with 401 "Invalid credentials" when
the login call yields no result (in which case no profile call is ever
issued), fails with 500 "Failed to fetch user info" when login succeeded
but the profile fetch yields no result, and the login call is always the
first call issued — profile fetch never precedes it. -/
theorem authenticateAndCreateSession_error_paths (now : Int)
    (email password : String) (loginRes : LoginResponse)
    (profileRes : String → ProfileResponse) :
    (callIdpLogin loginRes = none →
      authenticateAndCreateSession now email password loginRes profileRes =
        (.err { error := "Invalid credentials", status := 401 },
         [.login email password])) ∧
    (∀ t, callIdpLogin loginRes = some t →
      getUserInfo (profileRes t.accessToken) = none →
      authenticateAndCreateSession now email password loginRes profileRes =
        (.err { error := "Failed to fetch user info", status := 500 },
         [.login email password, .profile t.accessToken])) ∧
    (∀ r trace,
      authenticateAndCreateSession now email password loginRes profileRes =
        (r, trace) →
      ∃ rest, trace = CallEvent.login email password :: rest) := by
  refine ⟨fun h => authenticate_login_none now email password loginRes profileRes h,
          fun t hl hp => authenticate_profile_none now email password loginRes profileRes t hl hp,
          ?_⟩
  intro r trace hrun
  cases hl : callIdpLogin loginRes with
  | none =>
    rw [authenticate_login_none now email password loginRes profileRes hl] at hrun
    injection hrun with h1 h2
    exact ⟨[], h2.symm⟩
  | some t =>
    cases hp : getUserInfo (profileRes t.accessToken) with
    | none =>
      rw [authenticate_profile_none now email password loginRes profileRes t hl hp] at hrun
      injection hrun with h1 h2
      exact ⟨[.profile t.accessToken], h2.symm⟩
    | some u =>
      rw [authenticate_success_eq now email password loginRes profileRes t u hl hp] at hrun
      injection hrun with h1 h2
      exact ⟨[.profile t.accessToken], h2.symm⟩

/-- Claim C5 witness: Scenario B (rejected login) and a failing profile
fetch after a successful login, on concrete responses. -/
theorem authenticateAndCreateSession_error_paths_witness :
    (authenticateAndCreateSession 0 "a@b.c" "pw"
        { ok := false, json := none } (fun _ => { ok := false, json := none }) =
      (.err { error := "Invalid credentials", status := 401 },
       [.login "a@b.c" "pw"])) ∧
    (authenticateAndCreateSession 0 "a@b.c" "pw"
        (loginSuccessResponse
          { accessToken := "T1", refreshToken := "R1", expiresIn := 3600 })
        (fun _ => { ok := false, json := none }) =
      (.err { error := "Failed to fetch user info", status := 500 },
       [.login "a@b.c" "pw", .profile "T1"])) :=
  ⟨(authenticateAndCreateSession_error_paths 0 "a@b.c" "pw"
      { ok := false, json := none } (fun _ => { ok := false, json := none })).1
    (by decide),
   (authenticateAndCreateSession_error_paths 0 "a@b.c" "pw"
      (loginSuccessResponse
        { accessToken := "T1", refreshToken := "R1", expiresIn := 3600 })
      (fun _ => { ok := false, json := none })).2.1
    { accessToken := "T1", refreshToken := "R1", expiresIn := 3600 }
    (by decide) (by decide)⟩

/-- Claim C6: when login and profile fetch both succeed, bootstrap
returns one Session+User value with `session.id` the refresh token,
`session.token` the access token, `session.userId` the profile id,
`expiresAt = now + expiresIn * 1000`, `user.name = firstName ++ " " ++
lastName`, `emailVerified = true`, and all four `createdAt`/`updatedAt`
timestamps equal to the single `now`. -/
theorem authenticateAndCreateSession_success (now : Int)
    (email password : String) (loginRes : LoginResponse)
    (profileRes : String → ProfileResponse)
    (t : AccessTokenResponse) (u : UserInfo)
    (hl : callIdpLogin loginRes = some t)
    (hp : getUserInfo (profileRes t.accessToken) = some u) :
    authenticateAndCreateSession now email password loginRes profileRes =
      (.ok { user := { id := u.id
                       email := u.email
                       name := u.firstName ++ " " ++ u.lastName
                       createdAt := now
                       updatedAt := now
                       emailVerified := true
                       groups := u.groups }
             session := { id := t.refreshToken
                          userId := u.id
                          createdAt := now
                          updatedAt := now
                          token := t.accessToken
                          expiresAt := now + t.expiresIn * 1000 } },
       [.login email password, .profile t.accessToken]) :=
  authenticate_success_eq now email password loginRes profileRes t u hl hp

/-- Claim C6 witness: Scenario A on concrete provider responses. -/
theorem authenticateAndCreateSession_success_witness :
    authenticateAndCreateSession 0 "a@b.c" "pw"
      (loginSuccessResponse
        { accessToken := "T1", refreshToken := "R1", expiresIn := 3600 })
      (fun _ => profileSuccessResponse
        { id := "U1", firstName := "Jane", lastName := "Doe",
          email := "a@b.c", customerGroups := none }) =
      (.ok { user := { id := "U1"
                       email := "a@b.c"
                       name := "Jane Doe"
                       createdAt := 0
                       updatedAt := 0
                       emailVerified := true
                       groups := [] }
             session := { id := "R1"
                          userId := "U1"
                          createdAt := 0
                          updatedAt := 0
                          token := "T1"
                          expiresAt := 3600000 } },
       [.login "a@b.c" "pw", .profile "T1"]) :=
  authenticateAndCreateSession_success 0 "a@b.c" "pw"
    (loginSuccessResponse
      { accessToken := "T1", refreshToken := "R1", expiresIn := 3600 })
    (fun _ => profileSuccessResponse
      { id := "U1", firstName := "Jane", lastName := "Doe",
        email := "a@b.c", customerGroups := none })
    { accessToken := "T1", refreshToken := "R1", expiresIn := 3600 }
    { id := "U1", firstName := "Jane", lastName := "Doe", email := "a@b.c",
      groups := [] }
    (by decide) (by decide)

/-- Helper: the flat group collection `getUserInfo` computes from a
customer payload, mirroring `customerGroups?.nodes?.map(...) ?? []`. -/
def customerFlatGroups (c : Customer) : List Group :=
  match c.customerGroups with
  | none => []
  | some cg =>
    match cg.nodes with
    | none => []
    | some ns => ns.map fun g => { id := g.id, name := g.name }

/-- Helper: on an HTTP-success response with customer `c`, `getUserInfo`
returns exactly the record built from `c`. -/
theorem getUserInfo_some (res : ProfileResponse) (c : Customer)
    (hok : res.ok = true) (hc : profileCustomer res.json = some c) :
    getUserInfo res =
      some { id := c.id, firstName := c.firstName, lastName := c.lastName,
             email := c.email, groups := customerFlatGroups c } := by
  simp only [getUserInfo, hok, Bool.not_true, Bool.false_eq_true,
    if_false, hc, customerFlatGroups]

/-- Claim C7: every successful profile fetch yields a UserProfile whose
`groups` is the flat collection mapped from the provider's nested
`customerGroups.nodes` list, empty whenever the provider omits the group
list; and session bootstrap copies that collection verbatim into the
bootstrapped user's `groups` field. -/
theorem getUserInfo_groups_mapping (res : ProfileResponse) (c : Customer)
    (hok : res.ok = true) (hc : profileCustomer res.json = some c) :
    ∃ u, getUserInfo res = some u ∧
      u.groups = customerFlatGroups c ∧
      (c.customerGroups = none → u.groups = []) ∧
      (∀ cg, c.customerGroups = some cg → cg.nodes = none → u.groups = []) ∧
      (∀ cg ns, c.customerGroups = some cg → cg.nodes = some ns →
        u.groups = ns.map fun g => { id := g.id, name := g.name }) ∧
      (∀ now email password loginRes profileRes t,
        callIdpLogin loginRes = some t →
        profileRes t.accessToken = res →
        ∀ sd trace,
          authenticateAndCreateSession now email password loginRes profileRes =
            (.ok sd, trace) →
          sd.user.groups = u.groups) := by
  refine ⟨_, getUserInfo_some res c hok hc, rfl, ?_, ?_, ?_, ?_⟩
  · intro hnone
    simp only [customerFlatGroups, hnone]
  · intro cg hcg hns
    simp only [customerFlatGroups, hcg, hns]
  · intro cg ns hcg hns
    simp only [customerFlatGroups, hcg, hns]
  · intro now email password loginRes profileRes t hl hpr sd trace hrun
    rw [authenticate_success_eq now email password loginRes profileRes t
      { id := c.id, firstName := c.firstName, lastName := c.lastName,
        email := c.email, groups := customerFlatGroups c } hl
      (by rw [hpr]; exact getUserInfo_some res c hok hc)] at hrun
    injection hrun with h1 h2
    injection h1 with h3
    rw [← h3]

/-- Helper: a concrete customer payload carrying a two-element nested
group list, used by the group-mapping witness. -/
def customerTwoGroups : Customer :=
  { id := "U1", firstName := "Jane", lastName := "Doe", email := "a@b.c", customerGroups := some { nodes := some [{ id := "G1", name := "vip" }, { id := "G2", name := "b2b" }] } }

/-- Claim C7 witness: a concrete profile response with a two-element
nested group list, threaded through bootstrap. -/
theorem getUserInfo_groups_mapping_witness :
    ∃ u, getUserInfo (profileSuccessResponse customerTwoGroups) = some u ∧
      u.groups = customerFlatGroups customerTwoGroups ∧
      (customerTwoGroups.customerGroups = none → u.groups = []) ∧
      (∀ cg, customerTwoGroups.customerGroups = some cg →
        cg.nodes = none → u.groups = []) ∧
      (∀ cg ns, customerTwoGroups.customerGroups = some cg →
        cg.nodes = some ns →
        u.groups = ns.map fun g => { id := g.id, name := g.name }) ∧
      (∀ now email password loginRes profileRes t,
        callIdpLogin loginRes = some t →
        profileRes t.accessToken = profileSuccessResponse customerTwoGroups →
        ∀ sd trace,
          authenticateAndCreateSession now email password loginRes profileRes =
            (.ok sd, trace) →
          sd.user.groups = u.groups) :=
  getUserInfo_groups_mapping (profileSuccessResponse customerTwoGroups)
    customerTwoGroups rfl rfl

/-- Claim C8: `callIdpLogin` returns the token triple extracted from the
provider's `customerAccessToken` payload on an HTTP-success response that
carries one, and the single absence value `none` in every other case —
non-success HTTP response or missing token payload — so a transport-level
failure and a credential rejection are indistinguishable to the caller,
and the call never produces an error value. -/
theorem callIdpLogin_absence_collapse :
    (∀ res t, res.ok = true → loginTokenNode res.json = some t →
      callIdpLogin res = some { accessToken := t.accessToken,
                                refreshToken := t.refreshToken,
                                expiresIn := t.expiresIn }) ∧
    (∀ res, res.ok = false → callIdpLogin res = none) ∧
    (∀ res, loginTokenNode res.json = none → callIdpLogin res = none) ∧
    (∀ res, callIdpLogin res = none ∨
      ∃ t, res.ok = true ∧ loginTokenNode res.json = some t ∧
        callIdpLogin res = some { accessToken := t.accessToken,
                                  refreshToken := t.refreshToken,
                                  expiresIn := t.expiresIn }) := by
  refine ⟨?_, ?_, ?_, ?_⟩
  · intro res t hok ht
    simp [callIdpLogin, hok, ht]
  · intro res hfail
    simp [callIdpLogin, hfail]
  · intro res ht
    simp [callIdpLogin, ht]
  · intro res
    rcases hok : res.ok with _ | _
    · left
      simp [callIdpLogin, hok]
    · cases ht : loginTokenNode res.json with
      | none =>
        left
        simp [callIdpLogin, ht]
      | some t =>
        right
        exact ⟨t, rfl, rfl, by simp [callIdpLogin, hok, ht]⟩

/-- Claim C8 witness: a transport failure and a provider rejection both
yield `none`, while a success response yields the extracted triple. -/
theorem callIdpLogin_absence_collapse_witness :
    callIdpLogin { ok := false
                   json := (loginSuccessResponse
                     { accessToken := "T1", refreshToken := "R1",
                       expiresIn := 3600 }).json } = none ∧
    callIdpLogin loginRejectedResponse = none ∧
    callIdpLogin (loginSuccessResponse
        { accessToken := "T1", refreshToken := "R1", expiresIn := 3600 }) =
      some { accessToken := "T1", refreshToken := "R1", expiresIn := 3600 } :=
  ⟨callIdpLogin_absence_collapse.2.1
      { ok := false
        json := (loginSuccessResponse
          { accessToken := "T1", refreshToken := "R1",
            expiresIn := 3600 }).json } rfl,
   callIdpLogin_absence_collapse.2.2.1 loginRejectedResponse (by decide),
   callIdpLogin_absence_collapse.1
     (loginSuccessResponse
       { accessToken := "T1", refreshToken := "R1", expiresIn := 3600 })
     { accessToken := "T1", refreshToken := "R1", expiresIn := 3600 }
     rfl (by decide)⟩

end ThorAuth
